import Mathlib

/-!
Shallow embedding of the ULLTRA-Study dashboard core
(src/app.py, src/server.py, src/sharepoint_api.py).

Python dictionaries carrying JSON-serialisable values are modelled by the
`Json` inductive; Python `None` is `Json.null`; absence of an optional
Python attribute is `Option.none`.  Python truthiness (used by the
`a or b` field-aliasing chains and by `if not site_url`) is `truthy`.
-/

namespace ULLTRA

/-- JSON-serialisable Python values as handled by `json.dumps`. -/
inductive Json where
  | null
  | bool (b : Bool)
  | num (n : Int)
  | str (s : String)
  | arr (xs : List Json)
  | obj (fields : List (String × Json))

/-- Python truthiness of a `Json` value: `None`, `False`, `0`, `""`,
`[]` and `{}` are falsy, everything else truthy. -/
def truthy : Json → Bool
  | Json.null => false
  | Json.bool b => b
  | Json.num n => n != 0
  | Json.str s => s ≠ ""
  | Json.arr xs => ¬ xs.isEmpty
  | Json.obj fs => ¬ fs.isEmpty

/-- Python `d.get(k, dflt)`: the stored value when the key is present
(even if falsy), otherwise the default. -/
def pyGet (props : List (String × Json)) (k : String) (dflt : Json) : Json :=
  match props.lookup k with
  | some v => v
  | none => dflt

/-- Python `a or b`: `a` when truthy, else `b`. -/
def pyOr (a b : Json) : Json :=
  if truthy a then a else b

/-- Python truthiness of an optional string argument:
`not site_url` holds for `None` and for the empty string. -/
def pyFalsyStr : Option String → Bool
  | none => true
  | some s => s = ""

/-- The shared mutable `auth_status` dictionary of `SharePointManager`
(src/sharepoint_api.py lines 31-39). -/
structure AuthStatus where
  authenticated : Bool
  device_code : Option String
  user_code : Option String
  verification_url : Option String
  message : Option String
  expires_in : Option Nat
  error : Option String
deriving Repr, DecidableEq

/-- The zero/unauthenticated `auth_status` value installed by `__init__`
and by `logout`. -/
def initAuthStatus : AuthStatus :=
  { authenticated := false
    device_code := none
    user_code := none
    verification_url := none
    message := none
    expires_in := none
    error := none }

/-- The `ClientContext` session handle.  The library object is opaque; we
record the site it is bound to and whether the post-exchange probe
(`ctx.execute_query()` on `ctx.web`) returned without raising. -/
structure ClientContext where
  site_url : String
  probe_validated : Bool
deriving Repr, DecidableEq

/-- State of one `SharePointManager` instance
(src/sharepoint_api.py lines 27-41). -/
structure SharePointManager where
  site_url : String
  list_name : String
  ctx : Option ClientContext
  auth_status : AuthStatus
  access_token : Option String
  token_expires_at : Option Nat
deriving Repr, DecidableEq

/-- `SharePointManager.__init__(site_url, list_name)`. -/
def mkManager (site_url list_name : String) : SharePointManager :=
  { site_url := site_url
    list_name := list_name
    ctx := none
    auth_status := initAuthStatus
    access_token := none
    token_expires_at := none }

/-- The three-field snapshot returned by `get_auth_status`
(src/sharepoint_api.py lines 133-139). -/
structure AuthStatusView where
  authenticated : Bool
  message : Option String
  error : Option String
deriving Repr, DecidableEq

/-- `SharePointManager.get_auth_status`. -/
def get_auth_status (m : SharePointManager) : AuthStatusView :=
  { authenticated := m.auth_status.authenticated
    message := m.auth_status.message
    error := m.auth_status.error }

/-- `SharePointManager.is_authenticated`:
`self.ctx is not None and self.auth_status['authenticated']`. -/
def is_authenticated (m : SharePointManager) : Bool :=
  m.ctx.isSome && m.auth_status.authenticated

/-- `SharePointManager.logout` (src/sharepoint_api.py lines 145-158). -/
def logout (m : SharePointManager) : SharePointManager :=
  { m with
    ctx := none
    access_token := none
    token_expires_at := none
    auth_status := initAuthStatus }

/-! ## Device-code flow (src/sharepoint_api.py lines 43-131) -/

/-- The device-flow dictionary returned by
`msal.PublicClientApplication.initiate_device_flow` when it contains a
`user_code` key.  `expires_in` is optional: the code reads it with
`flow.get('expires_in', 900)`. -/
structure DeviceFlow where
  user_code : String
  device_code : String
  verification_uri : String
  message : String
  expires_in : Option Nat
deriving Repr, DecidableEq

/-- Outcome of the provider call `app.initiate_device_flow(...)`: it can
raise, return a dictionary without a `user_code` key, or return a full
device-flow dictionary. -/
inductive ProviderResult where
  | throws (e : String)
  | noUserCode
  | flow (f : DeviceFlow)
deriving Repr, DecidableEq

/-- The dictionary returned by `start_device_code_flow` to its caller. -/
inductive StartResult where
  | failure (error : String)
  | success (user_code device_code verification_url : String)
      (expires_in : Nat) (message : String) (instructions : List String)
deriving Repr, DecidableEq

/-- `SharePointManager.start_device_code_flow`, up to the point where the
background thread is spawned: the synchronous effect on the manager and
the returned dictionary.  `office365_available` is the module-level
`OFFICE365_AVAILABLE` flag; `provider` is the identity provider's
response to `initiate_device_flow`.  The background thread's own effects
are the `AuthOp` completion steps below. -/
def start_device_code_flow (office365_available : Bool)
    (provider : ProviderResult) (m : SharePointManager) :
    StartResult × SharePointManager :=
  if ¬ office365_available then
    (StartResult.failure
      "Office365-REST-Python-Client library not installed. Run: pip install Office365-REST-Python-Client",
     m)
  else
    match provider with
    | ProviderResult.throws e => (StartResult.failure e, m)
    | ProviderResult.noUserCode =>
        (StartResult.failure "Failed to create device flow", m)
    | ProviderResult.flow f =>
        let m' :=
          { m with
            auth_status :=
              { m.auth_status with
                user_code := some f.user_code
                device_code := some f.device_code
                verification_url := some f.verification_uri
                message := some f.message
                expires_in := some (f.expires_in.getD 900) } }
        (StartResult.success f.user_code f.device_code f.verification_uri
          (f.expires_in.getD 900) f.message
          ["Go to: " ++ f.verification_uri,
           "Enter the code: " ++ f.user_code,
           "Sign in with your Microsoft 365 credentials",
           "Grant permissions when prompted",
           "Return here - authentication will complete automatically"],
         m')

/-- One atomic operation on the manager.  `start` is the synchronous part
of `start_device_code_flow`; the three completion steps are the possible
endings of the background `authenticate` task (lines 75-105):
`tokenFail` covers `acquire_token_by_device_flow` raising or returning no
`access_token`; `probeSucceed tok title` is the success path where the
`execute_query` probe returns (the connected web's title is `title`);
`probeFail` is the path where the probe raises after `self.ctx` was
assigned. -/
inductive AuthOp where
  | start (office365_available : Bool) (provider : ProviderResult)
  | tokenFail (err : String)
  | probeSucceed (tok title : String)
  | probeFail (tok err : String)
  | doLogout
deriving Repr, DecidableEq

/-- Effect of one atomic operation on the manager state, from the source
of `start_device_code_flow`, the `authenticate` closure and `logout`. -/
def step (m : SharePointManager) : AuthOp → SharePointManager
  | AuthOp.start avail provider => (start_device_code_flow avail provider m).2
  | AuthOp.tokenFail e =>
      { m with
        auth_status :=
          { m.auth_status with authenticated := false, error := some e } }
  | AuthOp.probeSucceed tok title =>
      { m with
        access_token := some tok
        ctx := some { site_url := m.site_url, probe_validated := true }
        auth_status :=
          { m.auth_status with
            authenticated := true
            message := some ("Successfully connected to: " ++ title) } }
  | AuthOp.probeFail tok e =>
      { m with
        access_token := some tok
        ctx := some { site_url := m.site_url, probe_validated := false }
        auth_status :=
          { m.auth_status with authenticated := false, error := some e } }
  | AuthOp.doLogout => logout m

/-- A manager state reached from `__init__` by a sequence of operations. -/
def run_ops (m : SharePointManager) (ops : List AuthOp) : SharePointManager :=
  ops.foldl step m

/-! ## Calendar event fetch (src/sharepoint_api.py lines 160-221) -/

/-- A SharePoint list item, reduced to its `properties` dictionary. -/
def PropList : Type := List (String × Json)

/-- The normalized event dictionary built by
`_transform_list_item_to_event`. -/
structure Event where
  id : Json
  title : Json
  participant : Json
  date : Json
  time : Json
  type : Json
  description : Json
  location : Json
  status : Json
  raw : List (String × Json)

/-- `SharePointManager._transform_list_item_to_event`: the field-aliasing
dictionary construction of lines 203-215.  Nothing in the dictionary
construction raises, so the `except` branch returning `None` is dead and
the result is always `some`. -/
def transform_list_item_to_event (properties : List (String × Json)) :
    Option Event :=
  some
    { id := pyGet properties "ID" Json.null
      title := pyGet properties "Title" (Json.str "")
      participant :=
        pyOr (pyGet properties "Participant" Json.null)
          (pyOr (pyGet properties "ParticipantID" Json.null)
            (pyGet properties "Subject" (Json.str "")))
      date :=
        pyOr (pyGet properties "EventDate" Json.null)
          (pyOr (pyGet properties "StartDate" Json.null)
            (pyGet properties "Date" Json.null))
      time :=
        pyOr (pyGet properties "EventTime" Json.null)
          (pyGet properties "Time" (Json.str ""))
      type :=
        pyOr (pyGet properties "Category" Json.null)
          (pyOr (pyGet properties "EventType" Json.null)
            (pyGet properties "Type" (Json.str "general")))
      description :=
        pyOr (pyGet properties "Description" Json.null)
          (pyOr (pyGet properties "Notes" Json.null)
            (pyGet properties "Body" (Json.str "")))
      location := pyGet properties "Location" (Json.str "")
      status := pyGet properties "Status" (Json.str "")
      raw := properties }

/-- Python truthiness of the produced event dictionary (`if event:` on
line 182): the dictionary literal always has its ten keys, hence is
always truthy. -/
def eventTruthy (_e : Event) : Bool := true

/-- `SharePointManager.get_calendar_events`.  `remote` stands for the
outcome of the remote list access
(`get_by_title` / `load` / `execute_query`): either the item collection
or a raised error.  The guard on line 165 runs before any remote access,
so the result is an error independent of `remote` when unauthenticated. -/
def get_calendar_events (m : SharePointManager)
    (remote : Except String (List (List (String × Json)))) :
    Except String (List Event) :=
  if ¬ is_authenticated m then
    Except.error "Not authenticated. Please authenticate first."
  else
    match remote with
    | Except.error e =>
        Except.error ("Failed to fetch calendar events: " ++ e)
    | Except.ok items =>
        Except.ok
          (items.filterMap fun item =>
            match transform_list_item_to_event item with
            | some ev => if eventTruthy ev then some ev else none
            | none => none)

/-! ## Module-level manager singleton (src/sharepoint_api.py lines 224-237) -/

/-- `get_sharepoint_manager(site_url, list_name)` acting on the global
`_sharepoint_manager` cell: returns the raised error or the manager, and
the new cell contents.  `if not site_url or not list_name` uses Python
truthiness, so `None` and `""` both count as missing. -/
def get_sharepoint_manager (site_url list_name : Option String)
    (cell : Option SharePointManager) :
    Except String SharePointManager × Option SharePointManager :=
  match cell with
  | some m => (Except.ok m, some m)
  | none =>
      if pyFalsyStr site_url || pyFalsyStr list_name then
        (Except.error "SharePoint site URL and list name required", none)
      else
        let m := mkManager (site_url.getD "") (list_name.getD "")
        (Except.ok m, some m)

/-! ## JSON serialisation of handler payloads -/

/-- `json.dumps` image of an optional string: `None` becomes `null`. -/
def optStrJson : Option String → Json
  | none => Json.null
  | some s => Json.str s

/-- `json.dumps` image of the `get_auth_status` dictionary. -/
def authStatusJson (v : AuthStatusView) : Json :=
  Json.obj
    [("authenticated", Json.bool v.authenticated),
     ("message", optStrJson v.message),
     ("error", optStrJson v.error)]

/-- `json.dumps` image of one normalized event dictionary. -/
def eventJson (e : Event) : Json :=
  Json.obj
    [("id", e.id), ("title", e.title), ("participant", e.participant),
     ("date", e.date), ("time", e.time), ("type", e.type),
     ("description", e.description), ("location", e.location),
     ("status", e.status), ("raw", Json.obj e.raw)]

/-! ## API router (src/app.py lines 51-171) -/

/-- Body of an HTTP response: a JSON payload written through `wfile`, or
the HTML error page produced by `send_error`. -/
inductive ResponseBody where
  | payload (j : Json)
  | errorPage (message : String)

/-- An HTTP response: status code and body. -/
structure HttpResponse where
  status : Nat
  body : ResponseBody

/-- `CORSHTTPRequestHandler.handle_sharepoint_auth_status`
(src/app.py lines 101-122).  `cell` is the module-level
`_sharepoint_manager`; when it is `None` the bare
`get_sharepoint_manager()` call raises and the `except` branch answers
200 with `{'authenticated': False, 'error': 'Not initialized'}`. -/
def handle_sharepoint_auth_status (cell : Option SharePointManager) :
    HttpResponse :=
  match (get_sharepoint_manager none none cell).1 with
  | Except.ok m =>
      { status := 200, body := ResponseBody.payload (authStatusJson (get_auth_status m)) }
  | Except.error _ =>
      { status := 200
        body := ResponseBody.payload
          (Json.obj
            [("authenticated", Json.bool false),
             ("error", Json.str "Not initialized")]) }

/-- `CORSHTTPRequestHandler.handle_sharepoint_events`
(src/app.py lines 141-171).  `remote` is the outcome of the remote list
access, as in `get_calendar_events`. -/
def handle_sharepoint_events (cell : Option SharePointManager)
    (remote : Except String (List (List (String × Json)))) : HttpResponse :=
  match (get_sharepoint_manager none none cell).1 with
  | Except.error e =>
      { status := 500, body := ResponseBody.errorPage ("Error fetching events: " ++ e) }
  | Except.ok m =>
      if ¬ is_authenticated m then
        { status := 401
          body := ResponseBody.payload (Json.obj [("error", Json.str "Not authenticated")]) }
      else
        match get_calendar_events m remote with
        | Except.error e =>
            { status := 500, body := ResponseBody.errorPage ("Error fetching events: " ++ e) }
        | Except.ok events =>
            { status := 200
              body := ResponseBody.payload
                (Json.obj
                  [("success", Json.bool true),
                   ("events", Json.arr (events.map eventJson)),
                   ("count", Json.num events.length)]) }

/-- The optional JSON request body of `/api/sharepoint/auth/start`. -/
structure StartConfig where
  site_url : Option String
  list_name : Option String
deriving Repr, DecidableEq

/-- `CORSHTTPRequestHandler.handle_sharepoint_auth_start`
(src/app.py lines 68-99): defaults the configuration, calls
`get_sharepoint_manager(site_url, list_name)` and starts the device-code
flow on the resulting manager.  Returns the response together with the
new `_sharepoint_manager` cell contents. -/
def handle_sharepoint_auth_start (config : StartConfig)
    (office365_available : Bool) (provider : ProviderResult)
    (cell : Option SharePointManager) :
    HttpResponse × Option SharePointManager :=
  let site_url := config.site_url.getD "https://uflorida.sharepoint.com/sites/PRICE"
  let list_name := config.list_name.getD "PRICECalendar"
  match get_sharepoint_manager (some site_url) (some list_name) cell with
  | (Except.error e, cell') =>
      ({ status := 500, body := ResponseBody.errorPage ("Authentication error: " ++ e) }, cell')
  | (Except.ok m, _) =>
      let r := start_device_code_flow office365_available provider m
      let bodyJson :=
        match r.1 with
        | StartResult.failure e =>
            Json.obj [("success", Json.bool false), ("error", Json.str e)]
        | StartResult.success uc dc vu ei msg instr =>
            Json.obj
              [("success", Json.bool true), ("user_code", Json.str uc),
               ("device_code", Json.str dc), ("verification_url", Json.str vu),
               ("expires_in", Json.num ei), ("message", Json.str msg),
               ("instructions", Json.arr (instr.map Json.str))]
      ({ status := 200, body := ResponseBody.payload bodyJson }, some r.2)

/-! ## Port scan and server startup (src/app.py lines 194-232) -/

/-- Body of the `while port < start_port + 100` loop of
`ULLTRADashboard.find_free_port`; `remaining` is the number of loop
iterations left and `free p` tells whether binding port `p` succeeds. -/
def find_free_port_go (free : Nat → Bool) (port remaining : Nat) :
    Except String Nat :=
  match remaining with
  | 0 => Except.error "Could not find a free port"
  | r + 1 =>
      if free port then Except.ok port
      else find_free_port_go free (port + 1) r

/-- `ULLTRADashboard.find_free_port(start_port)`: scans the 100 ports
`start_port, ..., start_port + 99` and returns the first free one, or
raises when none is free.  The constructor calls it with the default
`start_port = 8000`. -/
def find_free_port (free : Nat → Bool) (start_port : Nat) :
    Except String Nat :=
  find_free_port_go free start_port 100

/-- The required web assets checked by `start_server`
(src/app.py line 213). -/
def required_files : List String := ["index.html", "styles.css", "script.js"]

/-- Observable outcome of `ULLTRADashboard.start_server`. -/
structure ServerStartOutcome where
  success : Bool
  server_created : Bool
  reported_error : Option String
deriving Repr, DecidableEq

/-- `ULLTRADashboard.start_server` (src/app.py lines 206-232), with the
base directory reduced to the list of file names present in it.  The
missing-files check runs before `socketserver.TCPServer` is constructed,
so on missing files the raised exception is caught, the error is
reported and no server socket is created or bound. -/
def start_server (present : List String) : ServerStartOutcome :=
  let missing := required_files.filter (fun f => ! present.contains f)
  if missing.isEmpty then
    { success := true, server_created := true, reported_error := none }
  else
    { success := false
      server_created := false
      reported_error :=
        some ("Missing required files: " ++ String.intercalate ", " missing) }

/-! ## Field-by-field publication of the success transition
(src/sharepoint_api.py lines 80-94)

The background `authenticate` task publishes the success transition as a
sequence of individual attribute/dict-item assignments; under the
interpreter each single assignment is atomic but the sequence is not.
`write_states` lists every manager state a concurrent reader can observe
while the sequence runs. -/

/-- The ordered individual writes of the success branch of the
`authenticate` closure: `self.access_token = ...` (line 82),
`self.ctx = ...` (lines 85-86), `auth_status['authenticated'] = True`
(line 93), `auth_status['message'] = ...` (line 94). -/
def auth_success_writes (tok title : String) :
    List (SharePointManager → SharePointManager) :=
  [fun m => { m with access_token := some tok },
   fun m => { m with ctx := some { site_url := m.site_url, probe_validated := true } },
   fun m => { m with auth_status := { m.auth_status with authenticated := true } },
   fun m =>
     { m with
       auth_status :=
         { m.auth_status with
           message := some ("Successfully connected to: " ++ title) } }]

/-- All states reachable while a write sequence runs: the state before
any write, and the state after every prefix of the writes. -/
def write_states (m : SharePointManager)
    (ws : List (SharePointManager → SharePointManager)) :
    List SharePointManager :=
  match ws with
  | [] => [m]
  | w :: rest => m :: write_states (w m) rest

/-! ## Auxiliary observers and concrete scenario states -/

/-- Whether a `start_device_code_flow` result reports success. -/
def StartResult.isSuccess : StartResult → Bool
  | StartResult.failure _ => false
  | StartResult.success _ _ _ _ _ _ => true

/-- Look up a top-level field of a JSON-object response body. -/
def responseJsonField (r : HttpResponse) (k : String) : Option Json :=
  match r.body with
  | ResponseBody.payload (Json.obj fields) => fields.lookup k
  | _ => none

/-- A concrete provider flow used to reach the DeviceCodeIssued state. -/
def flowA : DeviceFlow :=
  { user_code := "OLDCODE"
    device_code := "olddev"
    verification_uri := "https://microsoft.com/devicelogin"
    message := "enter OLDCODE"
    expires_in := some 900 }

/-- A concrete second provider flow offered to a later `start`. -/
def flowB : DeviceFlow :=
  { user_code := "NEWCODE"
    device_code := "newdev"
    verification_uri := "https://microsoft.com/devicelogin"
    message := "enter NEWCODE"
    expires_in := some 900 }

/-- A manager in the DeviceCodeIssued state: one `start` performed. -/
def issuedManager : SharePointManager :=
  run_ops (mkManager "site" "list")
    [AuthOp.start true (ProviderResult.flow flowA)]

/-- A manager in the Authenticated state: `start` followed by a
successful background completion. -/
def authManager : SharePointManager :=
  run_ops (mkManager "site" "list")
    [AuthOp.start true (ProviderResult.flow flowA),
     AuthOp.probeSucceed "tok" "Site"]

/-- The manager states a concurrent reader can observe while the success
branch of the background task publishes its writes, starting from the
concrete DeviceCodeIssued state. -/
def successWriteStates : List SharePointManager :=
  write_states issuedManager (auth_success_writes "tok9" "PRICE")

/-- The session invariant of the data model: whenever
`auth_status['authenticated']` is true the `ctx` handle is present and
its post-exchange probe succeeded. -/
def validated_session_inv (m : SharePointManager) : Prop :=
  m.auth_status.authenticated = true →
    ∃ c, m.ctx = some c ∧ c.probe_validated = true

/-! ## Theorems -/

/-- C1: in every manager state where `is_authenticated()` is false, a
POST to the events endpoint answers HTTP 401 with body
`{"error": "Not authenticated"}`, and `get_calendar_events` raises the
not-authenticated error whatever the remote list access would have
produced — i.e. before any remote access is attempted. -/
theorem events_endpoint_unauthenticated_401 (m : SharePointManager)
    (h : is_authenticated m = false)
    (remote : Except String (List (List (String × Json)))) :
    handle_sharepoint_events (some m) remote =
      { status := 401
        body := ResponseBody.payload
          (Json.obj [("error", Json.str "Not authenticated")]) } ∧
    get_calendar_events m remote =
      Except.error "Not authenticated. Please authenticate first." := by
  constructor
  · simp [handle_sharepoint_events, get_sharepoint_manager, h]
  · simp [get_calendar_events, h]

/-- Witness for C1: the freshly constructed manager is unauthenticated
and the endpoint answers 401 on it. -/
theorem events_endpoint_unauthenticated_401_witness :
    handle_sharepoint_events (some (mkManager "u" "l")) (Except.ok []) =
      { status := 401
        body := ResponseBody.payload
          (Json.obj [("error", Json.str "Not authenticated")]) } ∧
    get_calendar_events (mkManager "u" "l") (Except.ok []) =
      Except.error "Not authenticated. Please authenticate first." :=
  events_endpoint_unauthenticated_401 (mkManager "u" "l") rfl (Except.ok [])

/-- C3: from every prior manager state, `logout()` discards the session
handle and the access token, resets the whole `auth_status` record to
its zero value, and a subsequent `get_auth_status` read returns
`{authenticated: false, message: null, error: null}`. -/
theorem logout_resets_state (m : SharePointManager) :
    (logout m).ctx = none ∧
    (logout m).access_token = none ∧
    (logout m).auth_status = initAuthStatus ∧
    get_auth_status (logout m) =
      { authenticated := false, message := none, error := none } := by
  refine ⟨rfl, rfl, rfl, rfl⟩

/-- C5: when at least one required asset file is absent from the base
directory, `start_server` reports the failure, returns without success,
and creates no server socket. -/
theorem start_server_missing_assets (present : List String)
    (h : ∃ f ∈ required_files, present.contains f = false) :
    (start_server present).success = false ∧
    (start_server present).server_created = false ∧
    (start_server present).reported_error.isSome = true := by
  obtain ⟨f, hf, hmem⟩ := h
  have hfmem : f ∈ required_files.filter (fun g => ! present.contains g) :=
    List.mem_filter.mpr ⟨hf, by rw [hmem]; rfl⟩
  have hisEmpty :
      (required_files.filter (fun g => ! present.contains g)).isEmpty = false := by
    cases hcase : required_files.filter (fun g => ! present.contains g) with
    | nil => rw [hcase] at hfmem; cases hfmem
    | cons a as => rfl
  simp only [start_server]
  split
  · next hcond =>
      simp [hisEmpty] at hcond
      exact absurd hmem (by simp [hcond f hf])
  · exact ⟨rfl, rfl, rfl⟩

/-- Witness for C5: the empty base directory misses `index.html`, so
startup fails with no socket. -/
theorem start_server_missing_assets_witness :
    (start_server []).success = false ∧
    (start_server []).server_created = false ∧
    (start_server []).reported_error.isSome = true :=
  start_server_missing_assets [] ⟨"index.html", by decide, by decide⟩

/-- C2: a list item whose properties contain none of the candidate
source field names for a normalized attribute is transformed into an
Event using the documented default for that attribute — the empty string
for title, participant, time, description, location and status, the
literal `"general"` for type — and a fetch over such an item still
succeeds as a whole. -/
theorem transform_missing_fields_defaults (props : List (String × Json)) :
    ∃ ev, transform_list_item_to_event props = some ev ∧
      (props.lookup "Title" = none → ev.title = Json.str "") ∧
      (props.lookup "Participant" = none → props.lookup "ParticipantID" = none →
        props.lookup "Subject" = none → ev.participant = Json.str "") ∧
      (props.lookup "EventTime" = none → props.lookup "Time" = none →
        ev.time = Json.str "") ∧
      (props.lookup "Category" = none → props.lookup "EventType" = none →
        props.lookup "Type" = none → ev.type = Json.str "general") ∧
      (props.lookup "Description" = none → props.lookup "Notes" = none →
        props.lookup "Body" = none → ev.description = Json.str "") ∧
      (props.lookup "Location" = none → ev.location = Json.str "") ∧
      (props.lookup "Status" = none → ev.status = Json.str "") ∧
      (∀ m : SharePointManager, is_authenticated m = true →
        get_calendar_events m (Except.ok [props]) = Except.ok [ev]) := by
  refine ⟨_, rfl, ?_, ?_, ?_, ?_, ?_, ?_, ?_, ?_⟩
  · intro h1
    simp [transform_list_item_to_event, pyGet, h1]
  · intro h1 h2 h3
    simp [transform_list_item_to_event, pyGet, pyOr, truthy, h1, h2, h3]
  · intro h1 h2
    simp [transform_list_item_to_event, pyGet, pyOr, truthy, h1, h2]
  · intro h1 h2 h3
    simp [transform_list_item_to_event, pyGet, pyOr, truthy, h1, h2, h3]
  · intro h1 h2 h3
    simp [transform_list_item_to_event, pyGet, pyOr, truthy, h1, h2, h3]
  · intro h1
    simp [transform_list_item_to_event, pyGet, h1]
  · intro h1
    simp [transform_list_item_to_event, pyGet, h1]
  · intro m hm
    simp [get_calendar_events, hm, transform_list_item_to_event, eventTruthy]

/-- Witness for C2: the item with an empty property dictionary misses
every candidate field; each normalized attribute gets its default and
the fetch over it succeeds on an authenticated manager. -/
theorem transform_missing_fields_defaults_witness :
    (transform_list_item_to_event []).map (fun e => e.title) = some (Json.str "") ∧
    (transform_list_item_to_event []).map (fun e => e.participant) = some (Json.str "") ∧
    (transform_list_item_to_event []).map (fun e => e.time) = some (Json.str "") ∧
    (transform_list_item_to_event []).map (fun e => e.type) = some (Json.str "general") ∧
    (transform_list_item_to_event []).map (fun e => e.description) = some (Json.str "") ∧
    (transform_list_item_to_event []).map (fun e => e.location) = some (Json.str "") ∧
    (transform_list_item_to_event []).map (fun e => e.status) = some (Json.str "") ∧
    (transform_list_item_to_event []).map (fun e => Except.ok [e]) =
      some (get_calendar_events authManager
        (Except.ok [([] : List (String × Json))])) := by
  obtain ⟨ev, hev, h1, h2, h3, h4, h5, h6, h7, h8⟩ :=
    transform_missing_fields_defaults []
  rw [hev]
  exact ⟨by simp [h1 rfl], by simp [h2 rfl rfl rfl], by simp [h3 rfl rfl],
    by simp [h4 rfl rfl rfl], by simp [h5 rfl rfl rfl], by simp [h6 rfl],
    by simp [h7 rfl], by simp [h8 authManager rfl]⟩

/-- C4 counterexample: before the manager has been created, the POST
status endpoint does not answer with `error: null` — its body carries
`error: "Not initialized"` and no `message` field at all. -/
theorem status_endpoint_uninitialized_error_body :
    responseJsonField (handle_sharepoint_auth_status none) "error" =
      some (Json.str "Not initialized") ∧
    responseJsonField (handle_sharepoint_auth_status none) "message" = none ∧
    Json.str "Not initialized" ≠ Json.null := by
  refine ⟨rfl, rfl, fun h => Json.noConfusion h⟩

/-- C4 amended: before any `start()`, a manager-level `status()` read
returns `{authenticated: false, message: null, error: null}`; the POST
status endpoint, called before the manager has been created, instead
answers HTTP 200 with body
`{authenticated: false, error: "Not initialized"}` (no message field);
on a freshly constructed manager the endpoint answers the zero state. -/
theorem status_before_start_zero_state (url name : String) :
    get_auth_status (mkManager url name) =
      { authenticated := false, message := none, error := none } ∧
    handle_sharepoint_auth_status none =
      { status := 200
        body := ResponseBody.payload
          (Json.obj
            [("authenticated", Json.bool false),
             ("error", Json.str "Not initialized")]) } ∧
    handle_sharepoint_auth_status (some (mkManager url name)) =
      { status := 200
        body := ResponseBody.payload
          (Json.obj
            [("authenticated", Json.bool false),
             ("message", Json.null), ("error", Json.null)]) } := by
  refine ⟨rfl, rfl, rfl⟩

/-- The scan loop returns `ok p` exactly when `p` is the first free port
among the `remaining` ports starting at `port`. -/
theorem find_free_port_go_ok_iff (free : Nat → Bool) :
    ∀ remaining port p,
      find_free_port_go free port remaining = Except.ok p ↔
        (port ≤ p ∧ p < port + remaining ∧ free p = true ∧
          ∀ q, port ≤ q → q < p → free q = false) := by
  intro remaining
  induction remaining with
  | zero =>
      intro port p
      constructor
      · intro h
        exact Except.noConfusion h
      · rintro ⟨h1, h2, -, -⟩
        exfalso
        omega
  | succ r ih =>
      intro port p
      by_cases hf : free port = true
      · simp only [find_free_port_go, hf, if_true]
        constructor
        · intro h
          have hp : port = p := Except.ok.inj h
          subst hp
          refine ⟨le_rfl, by omega, hf, ?_⟩
          intro q hq1 hq2
          exfalso
          omega
        · rintro ⟨h1, h2, h3, h4⟩
          have hp : p = port := by
            by_contra hne
            have hlt : port < p := lt_of_le_of_ne h1 (Ne.symm hne)
            have hcontra := h4 port le_rfl hlt
            rw [hf] at hcontra
            exact Bool.noConfusion hcontra
          rw [hp]
      · have hf' : free port = false := by
          revert hf
          cases free port <;> simp
        simp only [find_free_port_go, hf', Bool.false_eq_true, if_false]
        rw [ih (port + 1) p]
        constructor
        · rintro ⟨h1, h2, h3, h4⟩
          refine ⟨by omega, by omega, h3, ?_⟩
          intro q hq1 hq2
          rcases Nat.eq_or_lt_of_le hq1 with heq | hlt
          · rw [← heq]
            exact hf'
          · exact h4 q hlt hq2
        · rintro ⟨h1, h2, h3, h4⟩
          have hne : p ≠ port := by
            intro hp
            rw [hp, hf'] at h3
            exact Bool.noConfusion h3
          refine ⟨by omega, by omega, h3, ?_⟩
          intro q hq1 hq2
          exact h4 q (by omega) hq2

/-- The scan loop raises when every port in its window is occupied. -/
theorem find_free_port_go_exhausted (free : Nat → Bool) :
    ∀ remaining port,
      (∀ p, port ≤ p → p < port + remaining → free p = false) →
      find_free_port_go free port remaining =
        Except.error "Could not find a free port" := by
  intro remaining
  induction remaining with
  | zero =>
      intro port _
      rfl
  | succ r ih =>
      intro port h
      have hf : free port = false := h port le_rfl (by omega)
      simp only [find_free_port_go, hf, Bool.false_eq_true, if_false]
      exact ih (port + 1) (fun p hp1 hp2 => h p (by omega) (by omega))

/-- C6: starting the scan at the default 8000, the server's port
selection returns 8000 when it is free; in general it returns `p`
exactly when `p` is the first free port of the bounded window
8000..8099 (100 ports); and it fails with the fatal
"Could not find a free port" error when no port in the window is
free. -/
theorem find_free_port_spec (free : Nat → Bool) :
    (free 8000 = true → find_free_port free 8000 = Except.ok 8000) ∧
    (∀ p, find_free_port free 8000 = Except.ok p ↔
      (8000 ≤ p ∧ p < 8100 ∧ free p = true ∧
        ∀ q, 8000 ≤ q → q < p → free q = false)) ∧
    ((∀ p, 8000 ≤ p → p < 8100 → free p = false) →
      find_free_port free 8000 = Except.error "Could not find a free port") := by
  refine ⟨?_, ?_, ?_⟩
  · intro h8000
    exact (find_free_port_go_ok_iff free 100 8000 8000).mpr
      ⟨le_rfl, by omega, h8000, fun q h1 h2 => by exfalso; omega⟩
  · intro p
    simpa using find_free_port_go_ok_iff free 100 8000 p
  · intro h
    exact find_free_port_go_exhausted free 100 8000
      (fun p h1 h2 => h p h1 (by omega))

/-- Witness for C6: with every port free, the scan binds 8000. -/
theorem find_free_port_spec_witness :
    find_free_port (fun _ => true) 8000 = Except.ok 8000 :=
  (find_free_port_spec (fun _ => true)).1 rfl

/-- C7 counterexample: from both the DeviceCodeIssued and the
Authenticated state, `start_device_code_flow` still initiates a new
device-code handshake — it reports success and overwrites the published
device-code fields; no state check exists. -/
theorem start_while_authenticated_initiates :
    is_authenticated authManager = true ∧
    (start_device_code_flow true (ProviderResult.flow flowB) authManager).1.isSuccess = true ∧
    (start_device_code_flow true (ProviderResult.flow flowB) authManager).2.auth_status.user_code =
      some "NEWCODE" ∧
    (start_device_code_flow true (ProviderResult.flow flowB) authManager).2.auth_status.device_code =
      some "newdev" ∧
    issuedManager.auth_status.device_code = some "olddev" ∧
    (start_device_code_flow true (ProviderResult.flow flowB) issuedManager).1.isSuccess = true ∧
    (start_device_code_flow true (ProviderResult.flow flowB) issuedManager).2.auth_status.device_code =
      some "newdev" := by
  refine ⟨rfl, rfl, rfl, rfl, rfl, rfl, rfl⟩

/-- C7 amended: `start_device_code_flow` performs no state check: from
every manager state — Idle, Failed, DeviceCodeIssued or Authenticated —
whenever the library is available and the provider returns a device
flow, it initiates the handshake, publishes the new
user_code/device_code/verification_url/message/expires_in into
AuthStatus and reports success. -/
theorem start_no_state_guard (m : SharePointManager) (f : DeviceFlow) :
    start_device_code_flow true (ProviderResult.flow f) m =
      (StartResult.success f.user_code f.device_code f.verification_uri
        (f.expires_in.getD 900) f.message
        ["Go to: " ++ f.verification_uri,
         "Enter the code: " ++ f.user_code,
         "Sign in with your Microsoft 365 credentials",
         "Grant permissions when prompted",
         "Return here - authentication will complete automatically"],
       { m with
         auth_status :=
           { m.auth_status with
             user_code := some f.user_code
             device_code := some f.device_code
             verification_url := some f.verification_uri
             message := some f.message
             expires_in := some (f.expires_in.getD 900) } }) := rfl

/-- Every atomic operation preserves the session invariant. -/
theorem validated_session_inv_step (m : SharePointManager) (op : AuthOp)
    (h : validated_session_inv m) : validated_session_inv (step m op) := by
  cases op with
  | start avail provider =>
      cases avail with
      | false => exact fun hauth => h hauth
      | true =>
          cases provider with
          | throws e => exact fun hauth => h hauth
          | noUserCode => exact fun hauth => h hauth
          | flow f => exact fun hauth => h hauth
  | tokenFail e =>
      intro hauth
      simp [step] at hauth
  | probeSucceed tok title =>
      intro _
      exact ⟨{ site_url := m.site_url, probe_validated := true }, rfl, rfl⟩
  | probeFail tok e =>
      intro hauth
      simp [step] at hauth
  | doLogout =>
      intro hauth
      simp [step, logout, initAuthStatus] at hauth

/-- The session invariant is preserved along any operation sequence. -/
theorem run_ops_validated_inv (ops : List AuthOp) :
    ∀ m, validated_session_inv m → validated_session_inv (run_ops m ops) := by
  induction ops with
  | nil => exact fun m h => h
  | cons op rest ih =>
      exact fun m h => ih (step m op) (validated_session_inv_step m op h)

/-- C8: after every sequence of operations from the initial manager,
whenever `auth_status['authenticated']` is true the session handle is
present and was validated by the post-exchange probe; and
`get_calendar_events` refuses to proceed whenever `is_authenticated()`
(session present and authenticated flag set) is false. -/
theorem authenticated_implies_validated_ctx (url name : String)
    (ops : List AuthOp) :
    ((run_ops (mkManager url name) ops).auth_status.authenticated = true →
      ∃ c, (run_ops (mkManager url name) ops).ctx = some c ∧
        c.probe_validated = true) ∧
    (∀ remote, is_authenticated (run_ops (mkManager url name) ops) = false →
      get_calendar_events (run_ops (mkManager url name) ops) remote =
        Except.error "Not authenticated. Please authenticate first.") := by
  constructor
  · exact run_ops_validated_inv ops (mkManager url name)
      (fun hauth => by simp [mkManager, initAuthStatus] at hauth)
  · intro remote hna
    simp [get_calendar_events, hna]

/-- Witness for C8: after a successful completion, the context is
present and probe-validated; after a logout, the fetch refuses. -/
theorem authenticated_implies_validated_ctx_witness :
    ((run_ops (mkManager "u" "l") [AuthOp.probeSucceed "t" "T"]).ctx.map
      (fun c => c.probe_validated)) = some true ∧
    get_calendar_events (run_ops (mkManager "u" "l") [AuthOp.doLogout])
      (Except.ok []) =
      Except.error "Not authenticated. Please authenticate first." := by
  obtain ⟨c, hc, hval⟩ :=
    (authenticated_implies_validated_ctx "u" "l"
      [AuthOp.probeSucceed "t" "T"]).1 rfl
  refine ⟨?_, ?_⟩
  · rw [hc]
    simp [hval]
  · exact (authenticated_implies_validated_ctx "u" "l" [AuthOp.doLogout]).2
      (Except.ok []) rfl

/-- C9 counterexample: while the background task publishes the success
transition field by field, a concurrent `status()` read at the point
between the `authenticated` write and the `message` write observes a
torn snapshot — `authenticated` already true but `message` still the
device-flow message — which equals neither the pre-start snapshot nor
the fully-written post-transition snapshot. -/
theorem torn_status_read :
    (successWriteStates.map get_auth_status).get? 3 =
      some { authenticated := true, message := some "enter OLDCODE", error := none } ∧
    get_auth_status issuedManager =
      { authenticated := false, message := some "enter OLDCODE", error := none } ∧
    get_auth_status (step issuedManager (AuthOp.probeSucceed "tok9" "PRICE")) =
      { authenticated := true, message := some "Successfully connected to: PRICE",
        error := none } ∧
    ({ authenticated := true, message := some "enter OLDCODE", error := none } :
        AuthStatusView) ≠ get_auth_status issuedManager ∧
    ({ authenticated := true, message := some "enter OLDCODE", error := none } :
        AuthStatusView) ≠
      get_auth_status (step issuedManager (AuthOp.probeSucceed "tok9" "PRICE")) := by
  refine ⟨rfl, rfl, rfl, by decide, by decide⟩

/-- C9 amended: a concurrent `status()` read during the success-path
write sequence observes one of exactly three snapshots — the
pre-transition snapshot, the torn snapshot with `authenticated` already
true but `message` and `error` still at their pre-transition values, or
the post-transition snapshot; individual field writes are atomic, the
three-field record is not replaced atomically. -/
theorem status_snapshots_during_success (m : SharePointManager)
    (tok title : String) :
    ∀ v ∈ (write_states m (auth_success_writes tok title)).map get_auth_status,
      v = get_auth_status m ∨
      v = { authenticated := true, message := m.auth_status.message,
            error := m.auth_status.error } ∨
      v = get_auth_status (step m (AuthOp.probeSucceed tok title)) := by
  intro v hv
  simp only [write_states, auth_success_writes, List.map_cons, List.map_nil,
    List.mem_cons, List.not_mem_nil, or_false] at hv
  rcases hv with h | h | h | h | h
  · exact Or.inl h
  · exact Or.inl h
  · exact Or.inl h
  · exact Or.inr (Or.inl h)
  · exact Or.inr (Or.inr h)

/-- Witness for C9's amended theorem: the first observable snapshot of
the concrete write sequence is covered by the three-snapshot list. -/
theorem status_snapshots_during_success_witness :
    get_auth_status issuedManager = get_auth_status issuedManager ∨
    get_auth_status issuedManager =
      { authenticated := true, message := issuedManager.auth_status.message,
        error := issuedManager.auth_status.error } ∨
    get_auth_status issuedManager =
      get_auth_status (step issuedManager (AuthOp.probeSucceed "tok9" "PRICE")) :=
  status_snapshots_during_success issuedManager "tok9" "PRICE"
    (get_auth_status issuedManager) (by decide)

/-- C10: once the module-level manager cell is populated, every later
`get_sharepoint_manager` call returns that same manager unchanged,
whatever arguments are passed; consequently a second auth-start request
with a different site_url or list_name leaves the manager's site_url
and list_name unchanged. -/
theorem manager_singleton_frame (site_url list_name : Option String)
    (cell : Option SharePointManager) (m : SharePointManager)
    (h : cell = some m) :
    get_sharepoint_manager site_url list_name cell = (Except.ok m, some m) ∧
    (∀ config avail provider,
      ((handle_sharepoint_auth_start config avail provider cell).2.map
        (fun x => (x.site_url, x.list_name))) =
        some (m.site_url, m.list_name)) := by
  subst h
  refine ⟨rfl, ?_⟩
  intro config avail provider
  simp only [handle_sharepoint_auth_start, get_sharepoint_manager]
  cases avail <;> cases provider <;>
    simp [start_device_code_flow]

/-- Witness for C10: with the cell already holding the manager for
`site`/`list`, a start request for a different site and list returns
success yet leaves the stored site and list unchanged. -/
theorem manager_singleton_frame_witness :
    get_sharepoint_manager (some "other") (some "another")
      (some (mkManager "site" "list")) =
      (Except.ok (mkManager "site" "list"), some (mkManager "site" "list")) ∧
    ((handle_sharepoint_auth_start
        { site_url := some "other", list_name := some "another" } true
        (ProviderResult.flow flowB) (some (mkManager "site" "list"))).2.map
      (fun x => (x.site_url, x.list_name))) = some ("site", "list") := by
  have h := manager_singleton_frame (some "other") (some "another")
    (some (mkManager "site" "list")) (mkManager "site" "list") rfl
  exact ⟨h.1, h.2 { site_url := some "other", list_name := some "another" }
    true (ProviderResult.flow flowB)⟩

end ULLTRA
